import Mathlib

/-!
Verification development for the packmin repository (a Python CLI that builds
AI-generated travel packing lists).  The Python sources under `src/packmin/`
are shallowly embedded below: pure functions become Lean functions, Python
exceptions become `Except` values, machine floats are modelled as exact
rationals (`Rat`), and the outbound network calls of the weather module are
modelled as explicit oracle arguments.  Braces inside string literals are
written with the escapes \x7b and \x7d.
-/

namespace Packmin

/-! ## A model of Python values decoded from JSON (the result of json.loads)

Python json distinguishes ints from floats; both are kept exactly.  Floats
are modelled as exact rationals, so the non-finite literals NaN / Infinity /
-Infinity (which CPython json accepts as IEEE non-finite doubles) fall
outside the model and are reported as decode errors.  Object key/value pairs
are kept in source order; lookups take the last occurrence of a key, and
iteration order deduplicates keys keeping first positions, matching dict
construction semantics. -/

inductive JVal where
  | null : JVal
  | bool : Bool → JVal
  | int : Int → JVal
  | float : Rat → JVal
  | str : String → JVal
  | arr : List JVal → JVal
  | obj : List (String × JVal) → JVal

/-- Characters accepted as whitespace by the json decoder. -/
def jsonWs (c : Char) : Bool :=
  c = ' ' || c = '\t' || c = '\n' || c = '\r'

/-- Drop leading json whitespace. -/
def jSkipWs : List Char → List Char
  | [] => []
  | c :: cs => if jsonWs c then jSkipWs cs else c :: cs

def isJsonDigit (c : Char) : Bool := '0' ≤ c && c ≤ '9'

/-- Split a leading run of decimal digits from the rest. -/
def takeDigits : List Char → List Char × List Char
  | [] => ([], [])
  | c :: cs =>
    if isJsonDigit c then
      let p := takeDigits cs
      (c :: p.1, p.2)
    else ([], c :: cs)

def digitsToNat (ds : List Char) : Nat :=
  ds.foldl (fun a c => a * 10 + (c.toNat - 48)) 0

def hexVal (c : Char) : Option Nat :=
  if '0' ≤ c ∧ c ≤ '9' then some (c.toNat - 48)
  else if 'a' ≤ c ∧ c ≤ 'f' then some (c.toNat - 87)
  else if 'A' ≤ c ∧ c ≤ 'F' then some (c.toNat - 55)
  else none

def pow10 (k : Nat) : Rat := (10 : Rat) ^ k

/-- Scale an integer mantissa by a signed power of ten. -/
def scalePow10 (m : Rat) (e : Int) : Rat :=
  if 0 ≤ e then m * pow10 e.toNat else m / pow10 (-e).toNat

/-- Parse the exponent that follows the `e` of a json number; the result is
always a float.  `neg` is the sign of the whole literal, `ip` the integer
part, `fds` the fraction digits (empty when there was no fraction). -/
def finishExp (neg : Bool) (ip : Nat) (fds : List Char) (cs : List Char) :
    Except String (JVal × List Char) :=
  let (eneg, cs1) := match cs with
    | '-' :: r => (true, r)
    | '+' :: r => (false, r)
    | r => (false, r)
  match takeDigits cs1 with
  | ([], _) => .error "invalid exponent"
  | (eds, rest) =>
    let mag : Rat := (ip : Rat) + (digitsToNat fds : Rat) / pow10 fds.length
    let ev : Int := if eneg then -(digitsToNat eds : Int) else (digitsToNat eds : Int)
    .ok (.float (scalePow10 (if neg then -mag else mag) ev), rest)

/-- Finish a json number after its mantissa: an optional exponent follows;
a number without fraction and exponent is a Python int, otherwise a
float. -/
def finishNumber (neg : Bool) (ip : Nat) (fds : List Char) (isFloat : Bool)
    (cs : List Char) : Except String (JVal × List Char) :=
  match cs with
  | 'e' :: rest => finishExp neg ip fds rest
  | 'E' :: rest => finishExp neg ip fds rest
  | _ =>
    if isFloat then
      let mag : Rat := (ip : Rat) + (digitsToNat fds : Rat) / pow10 fds.length
      .ok (.float (if neg then -mag else mag), cs)
    else
      .ok (.int (if neg then -(ip : Int) else (ip : Int)), cs)

/-- Continue a json number after its integer part: an optional fraction
with at least one digit. -/
def withIntPart (neg : Bool) (ip : Nat) (cs : List Char) :
    Except String (JVal × List Char) :=
  match cs with
  | '.' :: rest =>
    match takeDigits rest with
    | ([], _) => .error "invalid fraction"
    | (fds, rest2) => finishNumber neg ip fds true rest2
  | _ => finishNumber neg ip [] false cs

/-- Parse a json number token at the head of `cs` (first char is a digit or a
minus sign).  Follows the json grammar: `-?(0|[1-9][0-9]*)(\.[0-9]+)?`
with an optional exponent. -/
def parseJsonNumber (cs : List Char) : Except String (JVal × List Char) :=
  let (neg, cs1) := match cs with
    | '-' :: r => (true, r)
    | r => (false, r)
  match cs1 with
  | '0' :: rest => withIntPart neg 0 rest
  | c :: _ =>
    if isJsonDigit c then
      match takeDigits cs1 with
      | (ds, rest) => withIntPart neg (digitsToNat ds) rest
    else .error "invalid number"
  | [] => .error "invalid number"

/-- Decode the body of a json string (the opening quote is already
consumed), handling the escape sequences of the json grammar.  Surrogate
pairs in \uXXXX escapes are combined; a lone surrogate (legal in a Python
str but not a Lean Char) is mapped to U+FFFD, a documented modelling
boundary.  Unescaped control characters are rejected, as in strict-mode
json. -/
def parseJsonStringAux (fuel : Nat) (acc : List Char) (cs : List Char) :
    Except String (String × List Char) :=
  match fuel with
  | 0 => .error "string depth"
  | fuel + 1 =>
    match cs with
    | [] => .error "unterminated string"
    | '"' :: rest => .ok (String.mk acc.reverse, rest)
    | '\\' :: rest =>
      match rest with
      | 'u' :: h1 :: h2 :: h3 :: h4 :: rest2 =>
        match hexVal h1, hexVal h2, hexVal h3, hexVal h4 with
        | some a, some b, some c, some d =>
          let n := ((a * 16 + b) * 16 + c) * 16 + d
          if 0xD800 ≤ n ∧ n ≤ 0xDBFF then
            match rest2 with
            | '\\' :: 'u' :: g1 :: g2 :: g3 :: g4 :: rest3 =>
              match hexVal g1, hexVal g2, hexVal g3, hexVal g4 with
              | some a2, some b2, some c2, some d2 =>
                let m := ((a2 * 16 + b2) * 16 + c2) * 16 + d2
                if 0xDC00 ≤ m ∧ m ≤ 0xDFFF then
                  let code := 0x10000 + (n - 0xD800) * 0x400 + (m - 0xDC00)
                  parseJsonStringAux fuel (Char.ofNat code :: acc) rest3
                else parseJsonStringAux fuel ('�' :: acc) rest2
              | _, _, _, _ => parseJsonStringAux fuel ('�' :: acc) rest2
            | _ => parseJsonStringAux fuel ('�' :: acc) rest2
          else if 0xDC00 ≤ n ∧ n ≤ 0xDFFF then
            parseJsonStringAux fuel ('�' :: acc) rest2
          else
            parseJsonStringAux fuel (Char.ofNat n :: acc) rest2
        | _, _, _, _ => .error "invalid unicode escape"
      | '"' :: rest2 => parseJsonStringAux fuel ('"' :: acc) rest2
      | '\\' :: rest2 => parseJsonStringAux fuel ('\\' :: acc) rest2
      | '/' :: rest2 => parseJsonStringAux fuel ('/' :: acc) rest2
      | 'b' :: rest2 => parseJsonStringAux fuel ('\x08' :: acc) rest2
      | 'f' :: rest2 => parseJsonStringAux fuel ('\x0c' :: acc) rest2
      | 'n' :: rest2 => parseJsonStringAux fuel ('\n' :: acc) rest2
      | 'r' :: rest2 => parseJsonStringAux fuel ('\r' :: acc) rest2
      | 't' :: rest2 => parseJsonStringAux fuel ('\t' :: acc) rest2
      | _ => .error "invalid escape"
    | c :: rest =>
      if c.toNat < 0x20 then .error "control character in string"
      else parseJsonStringAux fuel (c :: acc) rest

mutual

/-- Parse a json value at the head of `cs` (leading whitespace already
skipped).  The fuel argument only bounds the recursion depth so the
definitions terminate; callers supply fuel larger than the input length, so
it never runs out on real input. -/
def parseJsonValue : Nat → List Char → Except String (JVal × List Char)
  | 0, _ => .error "value depth"
  | _ + 1, [] => .error "missing value"
  | fuel + 1, c :: cs =>
    match c with
    | 't' =>
      match cs with
      | 'r' :: 'u' :: 'e' :: rest => .ok (.bool true, rest)
      | _ => .error "invalid literal"
    | 'f' =>
      match cs with
      | 'a' :: 'l' :: 's' :: 'e' :: rest => .ok (.bool false, rest)
      | _ => .error "invalid literal"
    | 'n' =>
      match cs with
      | 'u' :: 'l' :: 'l' :: rest => .ok (.null, rest)
      | _ => .error "invalid literal"
    | '"' => do
      let (s, rest) ← parseJsonStringAux (fuel + 1) [] cs
      .ok (.str s, rest)
    | '{' =>
      match jSkipWs cs with
      | '}' :: rest => .ok (.obj [], rest)
      | cs2 => parseJsonMembers fuel [] cs2
    | '[' =>
      match jSkipWs cs with
      | ']' :: rest => .ok (.arr [], rest)
      | cs2 => parseJsonItems fuel [] cs2
    | _ =>
      if c = '-' || isJsonDigit c then parseJsonNumber (c :: cs)
      else .error "invalid value"

/-- Parse the members of a json object starting at a key (leading whitespace
already skipped); `acc` holds the members decoded so far in source order. -/
def parseJsonMembers : Nat → List (String × JVal) → List Char →
    Except String (JVal × List Char)
  | 0, _, _ => .error "object depth"
  | fuel + 1, acc, cs =>
    match cs with
    | '"' :: cs1 => do
      let (k, rest) ← parseJsonStringAux (fuel + 1) [] cs1
      match jSkipWs rest with
      | ':' :: rest2 => do
        let (v, rest3) ← parseJsonValue fuel (jSkipWs rest2)
        match jSkipWs rest3 with
        | ',' :: rest4 => parseJsonMembers fuel (acc ++ [(k, v)]) (jSkipWs rest4)
        | '}' :: rest4 => .ok (.obj (acc ++ [(k, v)]), rest4)
        | _ => .error "expected comma or closing brace"
      | _ => .error "expected colon"
    | _ => .error "expected property name"

/-- Parse the items of a json array starting at a value (leading whitespace
already skipped). -/
def parseJsonItems : Nat → List JVal → List Char →
    Except String (JVal × List Char)
  | 0, _, _ => .error "array depth"
  | fuel + 1, acc, cs => do
    let (v, rest) ← parseJsonValue fuel cs
    match jSkipWs rest with
    | ',' :: rest2 => parseJsonItems fuel (acc ++ [v]) (jSkipWs rest2)
    | ']' :: rest2 => .ok (.arr (acc ++ [v]), rest2)
    | _ => .error "expected comma or closing bracket"

end

/-- Embedding of `json.loads`: decode a complete json document, requiring
only whitespace after the value. -/
def jsonLoads (s : String) : Except String JVal :=
  match parseJsonValue (2 * s.length + 16) (jSkipWs s.data) with
  | .error e => .error e
  | .ok (v, rest) =>
    if (jSkipWs rest).isEmpty then .ok v else .error "extra data"

/-! ## Sentinel-block extraction (ai.extract_json_block, src/packmin/ai.py)

The source applies `re.search` with the DOTALL pattern
`PARSEABLE_JSON_START\s*(\x7b.*?\x7d)\s*PARSEABLE_JSON_END`.
The functions below implement exactly this pattern: the overall match is the
leftmost occurrence of the start marker from which the rest of the pattern
can succeed; after the marker, `\s*` followed by `\x7b` amounts to skipping
the whitespace run and requiring an opening brace (whitespace cannot match
the brace, so no backtracking arises); the lazy group ends at the first
closing brace that is followed, after whitespace, by the end marker. -/

/-- Whitespace for the regex class `\s` on a Python str (Unicode mode). -/
def isPyWs (c : Char) : Bool :=
  let n := c.toNat
  (0x09 ≤ n && n ≤ 0x0d) || (0x1c ≤ n && n ≤ 0x1f) || n = 0x20 ||
  n = 0x85 || n = 0xa0 || n = 0x1680 || (0x2000 ≤ n && n ≤ 0x200a) ||
  n = 0x2028 || n = 0x2029 || n = 0x202f || n = 0x205f || n = 0x3000

/-- Drop a leading run of `\s` characters. -/
def dropPyWs : List Char → List Char
  | [] => []
  | c :: cs => if isPyWs c then dropPyWs cs else c :: cs

/-- Match a literal at the head of the input, returning the remainder. -/
def stripLit : List Char → List Char → Option (List Char)
  | [], cs => some cs
  | _, [] => none
  | l :: ls, c :: cs => if c = l then stripLit ls cs else none

def startMarker : List Char := "PARSEABLE_JSON_START".data

def endMarker : List Char := "PARSEABLE_JSON_END".data

/-- Scan for the end of the lazy group `\x7b.*?\x7d`: the group closes at the
first `\x7d` that is followed, after whitespace, by the end marker.  `acc`
holds the group characters read so far (the opening brace included). -/
def grabGroup (acc : List Char) : List Char → Option (List Char)
  | [] => none
  | c :: cs =>
    if c = '}' then
      if (stripLit endMarker (dropPyWs cs)).isSome then some (acc ++ ['}'])
      else grabGroup (acc ++ ['}']) cs
    else grabGroup (acc ++ [c]) cs

/-- Try to match the whole pattern with the overall match starting exactly at
the head of `cs`. -/
def attemptAt (cs : List Char) : Option (List Char) :=
  match stripLit startMarker cs with
  | none => none
  | some rest =>
    match dropPyWs rest with
    | '{' :: rest2 => grabGroup ['{'] rest2
    | _ => none

/-- Leftmost-match scan: try each start position in order, as `re.search`
does. -/
def scanStart : List Char → Option (List Char)
  | [] => none
  | c :: cs =>
    match attemptAt (c :: cs) with
    | some g => some g
    | none => scanStart cs

/-- True when the literal start marker occurs somewhere in the text. -/
def hasStartMarker : List Char → Bool
  | [] => false
  | c :: cs => (stripLit startMarker (c :: cs)).isSome || hasStartMarker cs

/-- Embedding of `ai.extract_json_block`: find the sentinel-delimited group
and decode it with json.loads; a decode failure is caught and turned into
None, as is the absence of a match. -/
def extract_json_block (text : String) : Option JVal :=
  match scanStart text.data with
  | none => none
  | some g =>
    match jsonLoads (String.mk g) with
    | .ok v => some v
    | .error _ => none

/-! ## Python runtime helpers used by the parser

`parse_packing_list` applies `dict.get`, iteration, `int(...)` and
`float(...)` to decoded json values, and hands the results to pydantic
models.  Each of these can raise: the embeddings below return `Except PyErr`
with the exception class the CPython runtime would raise. -/

inductive PyErr where
  | valueError : PyErr
  | typeError : PyErr
  | attributeError : PyErr
  | validationError : PyErr
deriving DecidableEq

/-- Python truthiness of a decoded json value. -/
def pyTruthy : JVal → Bool
  | .null => false
  | .bool b => b
  | .int n => n ≠ 0
  | .float q => q ≠ 0
  | .str s => s ≠ ""
  | .arr xs => !xs.isEmpty
  | .obj kvs => !kvs.isEmpty

/-- Dict lookup: the last occurrence of a key wins, as when json builds a
dict from duplicate keys. -/
def dictGet (kvs : List (String × JVal)) (k : String) : Option JVal :=
  kvs.foldl (fun acc kv => if kv.1 = k then some kv.2 else acc) none

/-- Embedding of `d.get(key, default)`; raises AttributeError when `d` is not a dict. -/
def pyDictGet (v : JVal) (k : String) (dflt : JVal) : Except PyErr JVal :=
  match v with
  | .obj kvs => .ok ((dictGet kvs k).getD dflt)
  | _ => .error .attributeError

/-- Key sequence of a dict in iteration order: first occurrences, later
duplicates collapsed. -/
def dedupKeysAux (seen : List String) : List String → List String
  | [] => []
  | k :: ks =>
    if k ∈ seen then dedupKeysAux seen ks
    else k :: dedupKeysAux (k :: seen) ks

/-- Iteration `for x in v`: lists yield elements, strings yield 1-character strings,
dicts yield their keys; other values raise TypeError. -/
def pyIter : JVal → Except PyErr (List JVal)
  | .arr xs => .ok xs
  | .str s => .ok (s.data.map (fun c => .str (String.mk [c])))
  | .obj kvs => .ok ((dedupKeysAux [] (kvs.map (fun kv => kv.1))).map .str)
  | _ => .error .typeError

/-- Strip Python str whitespace from both ends. -/
def pyStrip (cs : List Char) : List Char :=
  ((dropPyWs ((dropPyWs cs.reverse))).reverse)

/-- True when two consecutive underscores occur. -/
def hasDoubleUnderscore : List Char → Bool
  | '_' :: '_' :: _ => true
  | _ :: cs => hasDoubleUnderscore cs
  | [] => false

/-- Valid digit group for Python int/float literals: digits with single
underscores strictly between digits. -/
def validDigitGroup (cs : List Char) : Bool :=
  match cs with
  | [] => false
  | _ =>
    cs.head?.all isJsonDigit && cs.getLast?.all isJsonDigit &&
    cs.all (fun c => isJsonDigit c || c = '_') &&
    !(hasDoubleUnderscore cs)

def digitGroupVal (cs : List Char) : Nat :=
  digitsToNat (cs.filter isJsonDigit)

/-- Python `int(s)` on a str: strip whitespace, optional sign, digits with
underscore separators; anything else raises ValueError. -/
def pyIntOfStr (s : String) : Option Int :=
  let cs := pyStrip s.data
  let (neg, body) := match cs with
    | '-' :: r => (true, r)
    | '+' :: r => (false, r)
    | r => (false, r)
  if validDigitGroup body then
    some (if neg then -(digitGroupVal body : Int) else (digitGroupVal body : Int))
  else none

/-- Split a float literal body at the first `e`/`E`. -/
def splitExpAux : List Char → List Char → List Char × Option (List Char)
  | [], acc => (acc.reverse, none)
  | c :: cs, acc =>
    if c = 'e' ∨ c = 'E' then (acc.reverse, some cs)
    else splitExpAux cs (c :: acc)

/-- Split a float mantissa at the first dot. -/
def splitDotAux : List Char → List Char → List Char × Option (List Char)
  | [], acc => (acc.reverse, none)
  | c :: cs, acc =>
    if c = '.' then (acc.reverse, some cs)
    else splitDotAux cs (c :: acc)

/-- The mantissa of a Python float literal: `d+`, `d+.d*`, `.d+` or
`d+.d+`. -/
def parseMantissa (cs : List Char) : Option Rat :=
  let (ip, rest) := splitDotAux cs []
  match rest with
  | none => if validDigitGroup ip then some ((digitGroupVal ip : Rat)) else none
  | some fp =>
    if ip.isEmpty ∧ fp.isEmpty then none
    else if (ip.isEmpty || validDigitGroup ip) ∧ (fp.isEmpty || validDigitGroup fp) then
      some ((digitGroupVal ip : Rat) +
        (digitGroupVal fp : Rat) / pow10 (fp.filter isJsonDigit).length)
    else none

/-- Python `float(s)` on a str: strip whitespace, optional sign, a mantissa
and an optional exponent.  The non-finite spellings inf / infinity / nan,
which CPython accepts, are outside the rational model and rejected here. -/
def pyFloatOfStr (s : String) : Option Rat :=
  let cs := pyStrip s.data
  let (neg, body) := match cs with
    | '-' :: r => (true, r)
    | '+' :: r => (false, r)
    | r => (false, r)
  let (mant, expPart) := splitExpAux body []
  match parseMantissa mant with
  | none => none
  | some m =>
    match expPart with
    | none => some (if neg then -m else m)
    | some ecs =>
      let (eneg, ebody) := match ecs with
        | '-' :: r => (true, r)
        | '+' :: r => (false, r)
        | r => (false, r)
      if validDigitGroup ebody then
        let e : Int := if eneg then -(digitGroupVal ebody : Int) else (digitGroupVal ebody : Int)
        some (scalePow10 (if neg then -m else m) e)
      else none

/-- Truncation of a rational toward zero, as `int(float)` does. -/
def ratTrunc (q : Rat) : Int :=
  let m : Nat := q.num.natAbs / q.den
  if q.num < 0 then -(m : Int) else (m : Int)

/-- Python `int(v)` applied to a decoded json value. -/
def pyInt : JVal → Except PyErr Int
  | .int n => .ok n
  | .bool b => .ok (if b then 1 else 0)
  | .float q => .ok (ratTrunc q)
  | .str s =>
    match pyIntOfStr s with
    | some n => .ok n
    | none => .error .valueError
  | _ => .error .typeError

/-- Python `float(v)` applied to a decoded json value. -/
def pyFloat : JVal → Except PyErr Rat
  | .int n => .ok (n : Rat)
  | .bool b => .ok (if b then 1 else 0)
  | .float q => .ok q
  | .str s =>
    match pyFloatOfStr s with
    | some q => .ok q
    | none => .error .valueError
  | _ => .error .typeError

/-- Pydantic validation of a `str` field: in lax mode a string is required,
no coercion from numbers. -/
def asStr : JVal → Except PyErr String
  | .str s => .ok s
  | _ => .error .validationError

/-- Pydantic validation of a `list[str]` field. -/
def asStrList : JVal → Except PyErr (List String)
  | .arr xs => xs.mapM asStr
  | _ => .error .validationError

/-! ## Data models (src/packmin/models.py)

Quantities are Python ints (unbounded, so plain `Int`); volumes and weights
are Python floats, modelled as exact rationals. -/

/-- models.PackingItem. -/
structure PackingItem where
  name : String
  quantity : Int := 1
  per_item_volume_l : Rat := 0
  total_volume_l : Rat := 0
  description : String := ""
  category : String := ""
deriving DecidableEq

/-- models.PackingCube. -/
structure PackingCube where
  name : String
  items : List String := []
  total_volume_l : Rat := 0
deriving DecidableEq

/-- models.PackingTotals. -/
structure PackingTotals where
  estimated_volume_l : Rat := 0
  percent_of_capacity : Rat := 0
  estimated_weight_kg : Rat := 0
deriving DecidableEq

/-- models.PackingList. -/
structure PackingList where
  total_clothes : List PackingItem := []
  worn_on_departure : List PackingItem := []
  packed_in_luggage : List PackingItem := []
  packing_cubes : List PackingCube := []
  totals : PackingTotals := {}
  raw_response : String := ""
deriving DecidableEq

/-- Sum of the quantities of a list of items. -/
def sumQty (items : List PackingItem) : Int :=
  (items.map (fun i => i.quantity)).sum

/-- Sum of the total volumes of a list of items. -/
def sumVol (items : List PackingItem) : Rat :=
  (items.map (fun i => i.total_volume_l)).sum

/-- Round a rational to the nearest integer, ties to even, as float
formatting does. -/
def roundHalfEven (x : Rat) : Int :=
  let f : Int := ⌊x⌋
  let r : Rat := x - (f : Rat)
  if r < 1 / 2 then f
  else if 1 / 2 < r then f + 1
  else if f % 2 = 0 then f else f + 1

/-- Python format spec `.2f` on a float, in the rational model: round
half-even at two decimals and always print two decimals, preserving the sign
of a negative value that rounds to zero. -/
def format2f (q : Rat) : String :=
  let n := roundHalfEven (q * 100)
  let sign := if n < 0 ∨ (n = 0 ∧ q < 0) then "-" else ""
  let a := n.natAbs
  sign ++ toString (a / 100) ++ "." ++
    (if a % 100 < 10 then "0" else "") ++ toString (a % 100)

/-- Join strings with a separator, as `sep.join(parts)` does. -/
def joinSep (sep : String) : List String → String
  | [] => ""
  | [x] => x
  | x :: xs => x ++ sep ++ joinSep sep xs

/-- The f-string for a quantity mismatch in validate_quantities. -/
def quantityMismatchMsg (t p w : Int) : String :=
  "Quantity mismatch: total " ++
    (toString t ++ " != packed " ++ toString p ++ " + worn " ++ toString w)

/-- The f-string for a volume mismatch in validate_quantities. -/
def volumeMismatchMsg (t p w : Rat) : String :=
  "Volume mismatch: total " ++
    (format2f t ++ "L != packed " ++ format2f p ++ "L + worn " ++
     format2f w ++ "L")

/-- The absolute volume tolerance 0.01 of validate_quantities. -/
def volTolerance : Rat := 1 / 100

/-- Embedding of `PackingList.validate_quantities`. -/
def PackingList.validate_quantities (pl : PackingList) : Bool × String :=
  let total_qty := sumQty pl.total_clothes
  let packed_qty := sumQty pl.packed_in_luggage
  let worn_qty := sumQty pl.worn_on_departure
  let total_vol := sumVol pl.total_clothes
  let packed_vol := sumVol pl.packed_in_luggage
  let worn_vol := sumVol pl.worn_on_departure
  let issues :=
    (if total_qty ≠ packed_qty + worn_qty
     then [quantityMismatchMsg total_qty packed_qty worn_qty] else []) ++
    (if volTolerance < |total_vol - (packed_vol + worn_vol)|
     then [volumeMismatchMsg total_vol packed_vol worn_vol] else [])
  (issues.isEmpty, joinSep "; " issues)

/-! ## Response parsing (ai.parse_packing_list, src/packmin/ai.py) -/

/-- The empty packing list the degraded path returns: all four collections
empty, totals zero, the raw response retained. -/
def emptyPackingList (raw : String) : PackingList :=
  { raw_response := raw }

/-- One iteration of the item loops in parse_packing_list: fetch with
defaults, coerce `qty` with `int`, the volumes with `float`, then let
pydantic validate the string fields. -/
def parsePackingItem (item : JVal) : Except PyErr PackingItem := do
  let nameV ← pyDictGet item "name" (.str "")
  let qty ← pyInt (← pyDictGet item "qty" (.int 1))
  let piv ← pyFloat (← pyDictGet item "per_item_volume_l" (.int 0))
  let tv ← pyFloat (← pyDictGet item "total_volume_l" (.int 0))
  let descV ← pyDictGet item "description" (.str "")
  let name ← asStr nameV
  let desc ← asStr descV
  .ok { name := name, quantity := qty, per_item_volume_l := piv,
        total_volume_l := tv, description := desc }

/-- One iteration of the packing-cube loop in parse_packing_list. -/
def parsePackingCube (cube : JVal) : Except PyErr PackingCube := do
  let nameV ← pyDictGet cube "cube" (.str "")
  let itemsV ← pyDictGet cube "items" (.arr [])
  let tv ← pyFloat (← pyDictGet cube "total_volume_l" (.int 0))
  let name ← asStr nameV
  let items ← asStrList itemsV
  .ok { name := name, items := items, total_volume_l := tv }

/-- The totals step of parse_packing_list: `parsed.get("totals", \x7b\x7d)`,
kept at the zero defaults when falsy. -/
def parseTotals (parsed : JVal) : Except PyErr PackingTotals := do
  let totalsV ← pyDictGet parsed "totals" (.obj [])
  if pyTruthy totalsV then
    let ev ← pyFloat (← pyDictGet totalsV "estimated_volume_l" (.int 0))
    let pc ← pyFloat (← pyDictGet totalsV "percent_of_capacity" (.int 0))
    let ew ← pyFloat (← pyDictGet totalsV "estimated_weight_kg" (.int 0))
    .ok { estimated_volume_l := ev, percent_of_capacity := pc,
          estimated_weight_kg := ew }
  else
    .ok {}

/-- Embedding of `ai.parse_packing_list`.  The Lean value is `Except`
because the body can raise: `int(...)` and `float(...)` on malformed field
values, attribute access on non-dict values, and pydantic validation all
propagate to the caller uncaught. -/
def parse_packing_list (raw_response : String) : Except PyErr PackingList :=
  match extract_json_block raw_response with
  | none => .ok (emptyPackingList raw_response)
  | some parsed =>
    if pyTruthy parsed then do
      let total_clothes ← (← pyIter (← pyDictGet parsed "total_clothes" (.arr []))).mapM parsePackingItem
      let worn ← (← pyIter (← pyDictGet parsed "worn_on_departure" (.arr []))).mapM parsePackingItem
      let packed ← (← pyIter (← pyDictGet parsed "packed_in_luggage" (.arr []))).mapM parsePackingItem
      let cubes ← (← pyIter (← pyDictGet parsed "packing_cubes" (.arr []))).mapM parsePackingCube
      let totals ← parseTotals parsed
      .ok { total_clothes := total_clothes, worn_on_departure := worn,
            packed_in_luggage := packed, packing_cubes := cubes,
            totals := totals, raw_response := raw_response }
    else
      .ok (emptyPackingList raw_response)

/-! ## Weather lookup (src/packmin/weather.py)

`get_weather_data` performs two outbound HTTP calls; their results are
passed explicitly as oracle arguments (`coords` for get_coordinates,
`daily_forecasts` for fetch_forecast, both already shaped like the consumed
API fields, and `fmtDate` for strftime).  A datetime is modelled by its
epoch second count together with its calendar month, the only two
projections the module uses. -/

/-- models.WeatherForecast. -/
structure WeatherForecast where
  date : String
  temp_min : Rat
  temp_max : Rat
  description : String
  rain_chance : Rat := 0
deriving DecidableEq

/-- models.WeatherData. -/
structure WeatherData where
  location : String
  forecasts : List WeatherForecast := []
  is_seasonal_estimate : Bool := false
deriving DecidableEq

/-- The two datetime projections used by weather.py. -/
structure PyDateTime where
  secs : Int
  month : Int
deriving DecidableEq

/-- Embedding of `weather.get_season`. -/
def get_season (month : Int) : String :=
  if month = 12 ∨ month = 1 ∨ month = 2 then "winter"
  else if month = 3 ∨ month = 4 ∨ month = 5 then "spring"
  else if month = 6 ∨ month = 7 ∨ month = 8 then "summer"
  else "fall"

/-- The season_temps table of `weather.get_seasonal_estimate`. -/
def season_temps : List (String × (Rat × Rat)) :=
  [("winter", (-5, 10)), ("spring", (10, 20)),
   ("summer", (20, 30)), ("fall", (10, 20))]

/-- Embedding of `weather.get_seasonal_estimate`. -/
def get_seasonal_estimate (month : Int) : WeatherForecast :=
  let season := get_season month
  let temps := ((season_temps.lookup season).getD (0, 0))
  { date := "seasonal average", temp_min := temps.1, temp_max := temps.2,
    description := season ++ " weather", rain_chance := 30 }

/-- One record of the `daily` array returned by the OneCall endpoint, with
the fields weather.py consumes; `pop` is `none` when the key is absent
(`day.get("pop", 0)`). -/
structure DailyEntry where
  dt : Int
  temp_min : Rat
  temp_max : Rat
  description : String
  pop : Option Rat
deriving DecidableEq

/-- Subtraction `(a - b).days` on datetimes: timedelta normalizes with floor division. -/
def timedeltaDays (a b : PyDateTime) : Int :=
  Int.fdiv (a.secs - b.secs) 86400

/-- Truthiness of the optional api key (an empty string is falsy). -/
def apiKeyTruthy : Option String → Bool
  | none => false
  | some s => s ≠ ""

/-- The forecast list built by the API branch of get_weather_data: only
when the trip starts within 7 days and a key is configured, and coordinate
resolution succeeded, keep the daily entries whose date falls inside the
trip window. -/
def api_forecast_list (start_date end_date : PyDateTime)
    (api_key : Option String) (now : PyDateTime)
    (coords : Option (Rat × Rat)) (daily_forecasts : List DailyEntry)
    (fmtDate : Int → String) : List WeatherForecast :=
  if timedeltaDays start_date now ≤ 7 ∧ apiKeyTruthy api_key = true then
    match coords with
    | some _ =>
      (daily_forecasts.filter
        (fun day => start_date.secs ≤ day.dt ∧ day.dt ≤ end_date.secs)).map
        (fun day =>
          { date := fmtDate day.dt, temp_min := day.temp_min,
            temp_max := day.temp_max, description := day.description,
            rain_chance := (day.pop.getD 0) * 100 })
    | none => []
  else []

/-- Embedding of `weather.get_weather_data`: when the API branch produced no
forecasts, fall back to the single seasonal estimate for the start month. -/
def get_weather_data (location : String) (start_date end_date : PyDateTime)
    (api_key : Option String) (now : PyDateTime)
    (coords : Option (Rat × Rat)) (daily_forecasts : List DailyEntry)
    (fmtDate : Int → String) : WeatherData :=
  match api_forecast_list start_date end_date api_key now coords
      daily_forecasts fmtDate with
  | [] =>
    { location := location,
      forecasts := [get_seasonal_estimate start_date.month],
      is_seasonal_estimate := true }
  | f :: fs =>
    { location := location, forecasts := f :: fs,
      is_seasonal_estimate := false }

/-! ## Trip models (src/packmin/models.py) and dates

A `datetime.date` is modelled by its calendar fields; `dateToDays` is the
proleptic Gregorian day number (days since 1970-01-01), so date subtraction
`(end - start).days` is the difference of day numbers. -/

/-- A calendar date. -/
structure PyDate where
  year : Int
  month : Int
  day : Int
deriving DecidableEq

/-- Day number of a civil date (days since the epoch), standard civil
calendar conversion. -/
def dateToDays (d : PyDate) : Int :=
  let y := if d.month ≤ 2 then d.year - 1 else d.year
  let era := Int.fdiv y 400
  let yoe := y - era * 400
  let mp := Int.emod (d.month + 9) 12
  let doy := Int.fdiv (153 * mp + 2) 5 + d.day - 1
  let doe := yoe * 365 + Int.fdiv yoe 4 - Int.fdiv yoe 100 + doy
  era * 146097 + doe - 719468

/-- models.TripDestination. -/
structure TripDestination where
  location : String
  start_date : PyDate
  end_date : PyDate
deriving DecidableEq

/-- Property `TripDestination.duration_days`: `(end_date - start_date).days + 1`. -/
def TripDestination.duration_days (d : TripDestination) : Int :=
  (dateToDays d.end_date - dateToDays d.start_date) + 1

/-- models.TravelerInfo, as the rest of the code base uses it.  The
`sleepwear` field is modelled from the spec: the spec data model lists a
sleepwear preference, cli.py passes `sleepwear=...` to this constructor and
prompts.format_trip_details reads `traveler.sleepwear`, but the class in
src/packmin/models.py does not declare the field (see the field-name model
further below, which records the declared attributes verbatim). -/
structure TravelerInfo where
  gender : String := ""
  age : Option Int := none
  clothing_size : String := ""
  shoe_size : String := ""
  sleepwear : String := ""
deriving DecidableEq

/-- models.LaundryInfo.  The heterogeneous `date_ranges` list (dicts with
from/to keys, or the string "all") is modelled as from/to pairs; it is not
read by any embedded operation. -/
structure LaundryInfo where
  available : Bool := false
  date_ranges : List (String × String) := []
deriving DecidableEq

/-- models.TripInfo, as the rest of the code base uses it.  The
`luggage_name` field is modelled from the spec: the spec data model lists an
optional luggage display name, cli.py passes `luggage_name=...` and
prompts.format_trip_details reads `trip_info.luggage_name`, but the class in
src/packmin/models.py does not declare the field. -/
structure TripInfo where
  destinations : List TripDestination
  traveler : TravelerInfo
  activities : String := ""
  additional_notes : String := ""
  laundry : LaundryInfo := {}
  luggage_volume_liters : Rat := 39
  luggage_name : String := ""
deriving DecidableEq

/-- Property `TripInfo.total_duration_days`. -/
def TripInfo.total_duration_days (t : TripInfo) : Int :=
  (t.destinations.map TripDestination.duration_days).sum

/-- Property `TripInfo.locations`. -/
def TripInfo.locations (t : TripInfo) : List String :=
  t.destinations.map (fun d => d.location)

/-! ## Attribute-name model for the models.py / prompts.py mismatch

These lists record, verbatim from the source, the field names declared by
the pydantic models in src/packmin/models.py and the attribute names that
prompts.format_trip_details reads from its argument.  Reading an attribute
that the model does not declare raises AttributeError at runtime (pydantic
drops unknown constructor keywords and rejects unknown attribute reads). -/

/-- Fields declared by models.TravelerInfo. -/
def travelerInfoDeclaredFields : List String :=
  ["gender", "age", "clothing_size", "shoe_size"]

/-- Fields declared by models.TripInfo (properties excluded). -/
def tripInfoDeclaredFields : List String :=
  ["destinations", "traveler", "activities", "additional_notes",
   "laundry", "luggage_volume_liters"]

/-- Attributes of `trip_info.traveler` read by prompts.format_trip_details. -/
def formatTripDetailsTravelerReads : List String :=
  ["gender", "age", "clothing_size", "shoe_size", "sleepwear"]

/-- Attributes of `trip_info` read by prompts.format_trip_details
(field accesses only, the `duration_days` / `total_duration_days` /
`locations` properties excluded). -/
def formatTripDetailsTripReads : List String :=
  ["destinations", "traveler", "activities", "laundry",
   "luggage_volume_liters", "luggage_name"]

/-! ## Prompt building (src/packmin/prompts.py) -/

/-- Left-pad a number with zeros to a width. -/
def padZeros (w : Nat) (n : Nat) : String :=
  let s := toString n
  String.mk (List.replicate (w - s.length) '0') ++ s

/-- Python `str(date)`: the ISO form YYYY-MM-DD (datetime years are 1..9999). -/
def pyDateStr (d : PyDate) : String :=
  padZeros 4 d.year.natAbs ++ "-" ++ padZeros 2 d.month.natAbs ++ "-" ++
    padZeros 2 d.day.natAbs

/-- Smallest power of ten the denominator divides, when small enough. -/
def decExpOf (den : Nat) : Option Nat :=
  (List.range 65).find? (fun k => 10 ^ k % den = 0)

/-- Python `str(float)` in the rational model: the exact decimal expansion with
trailing zeros trimmed and at least one fractional digit, so 39 prints as
"39.0" the way repr(39.0) does.  (CPython switches to exponent form for
extreme magnitudes and prints shortest round-trip digits; the values
interpolated into the prompt are plain decimals where the two agree.) -/
def ratDecimalRepr (q : Rat) : String :=
  match decExpOf q.den with
  | some k =>
    let a := q.num.natAbs * (10 ^ k / q.den)
    let sign := if q.num < 0 then "-" else ""
    let ip := a / 10 ^ k
    let fpRaw := (padZeros k (a % 10 ^ k)).data
    let fpTrimmed := (fpRaw.reverse.dropWhile (fun c => c = '0')).reverse
    let fp := if fpTrimmed.isEmpty then "0" else String.mk fpTrimmed
    sign ++ toString ip ++ "." ++ fp
  | none => toString q.num ++ "/" ++ toString q.den

/-- Truthiness of `Optional[int]` (None and 0 are falsy). -/
def optIntTruthy : Option Int → Bool
  | none => false
  | some n => n ≠ 0

/-- Embedding of `prompts.format_trip_details`: the lines list built by the
source, joined with newlines; blank optional fields are omitted. -/
def format_trip_details (trip_info : TripInfo) : String :=
  let destLines := trip_info.destinations.map (fun dest =>
    "- " ++ dest.location ++ ": " ++ pyDateStr dest.start_date ++ " to " ++
    pyDateStr dest.end_date ++ " (" ++ toString dest.duration_days ++ " days)")
  let traveler := trip_info.traveler
  let lines :=
    ["**Destinations:**"] ++ destLines ++
    ["\n**Total Duration:** " ++ toString trip_info.total_duration_days ++ " days"] ++
    (if traveler.gender ≠ "" then ["**Gender:** " ++ traveler.gender] else []) ++
    (if optIntTruthy traveler.age = true
     then ["**Age:** " ++ toString (traveler.age.getD 0)] else []) ++
    (if traveler.clothing_size ≠ ""
     then ["**Clothing Size:** " ++ traveler.clothing_size] else []) ++
    (if traveler.shoe_size ≠ ""
     then ["**Shoe Size:** " ++ traveler.shoe_size] else []) ++
    (if traveler.sleepwear ≠ ""
     then ["**Sleepwear Preference:** " ++ traveler.sleepwear ++
           " (dedicated=pack pajamas, minimal=use underwear/undershirt, none=sleep naked)"]
     else []) ++
    (if trip_info.activities ≠ ""
     then ["**Activities:** " ++ trip_info.activities] else []) ++
    ["**Laundry Available:** " ++ (if trip_info.laundry.available then "Yes" else "No")] ++
    ["**Luggage:** " ++ ratDecimalRepr trip_info.luggage_volume_liters ++ "L" ++
     (if trip_info.luggage_name ≠ ""
      then " (" ++ trip_info.luggage_name ++ ")" else "")]
  joinSep "\n" lines

/-- Python format spec `.0f` on a float, in the rational model: round
half-even to an integer, keeping the sign of a negative value that rounds
to zero. -/
def format0f (x : Rat) : String :=
  let n := roundHalfEven x
  if n = 0 ∧ x < 0 then "-0" else toString n

/-- The rain percentage text of a forecast line: `.0f` formatting for a
truthy rain chance, the literal "0%" otherwise. -/
def rainPct (rc : Rat) : String :=
  if rc ≠ 0 then format0f rc ++ "%" else "0%"

/-- Embedding of `prompts.format_weather_details`.  The dict argument is an
association list in insertion order, matching Python dict iteration. -/
def format_weather_details (weather_by_location : List (String × WeatherData)) : String :=
  let lines := (weather_by_location.map (fun lw =>
    ["**" ++ lw.1 ++ ":**"] ++
    lw.2.forecasts.map (fun f =>
      "  - " ++ f.date ++ ": " ++ ratDecimalRepr f.temp_min ++ "°C to " ++
      ratDecimalRepr f.temp_max ++ "°C, " ++ f.description ++ ", " ++
      rainPct f.rain_chance ++ " rain") ++
    (if lw.2.is_seasonal_estimate
     then ["  *(seasonal estimate - trip is >7 days away)*"] else []))).flatten
  joinSep "\n" lines

/-- The PACKING_PROMPT template of prompts.py as a function of its three
format fields (the doubled braces of the Python template are literal braces
in the output). -/
def PACKING_PROMPT (trip_details weather_details additional_notes : String) : String :=
  "Create a comprehensive packing list for this trip:\n\n## Trip Details\n" ++
  trip_details ++
  "\n\n## Weather Conditions\n" ++
  weather_details ++
  "\n\n## Requirements\n\n### Packing Philosophy\n- Use **capsule wardrobe** principles: maximize mix-and-match versatility\n- Prioritize multi-use, lightweight, quick-drying items\n- Only pack what is truly necessary\n\n### Output Structure (REQUIRED)\nProvide these 4 sections in order:\n\n1. **Total Clothes for the Trip** - All clothing needed (packed + worn)\n2. **Worn on Departure Day** - Items worn, not packed\n3. **Packed in Luggage** - Total minus departure clothes\n4. **Packing Cubes** - How items fit in 9L cubes (1-2 cubes typically)\n\n### Format for Items\nEach item: `Item Name: Quantity (X.XL each, Y.YL total)` with description\n\n### JSON Block (REQUIRED)\nEnd your response with a machine-parseable JSON block:\n\n```\nPARSEABLE_JSON_START\n\x7b\n  \"total_clothes\": [\n    \x7b\"name\": \"T-shirt\", \"qty\": 3, \"per_item_volume_l\": 0.7, \"total_volume_l\": 2.1, \"description\": \"quick-dry\"\x7d\n  ],\n  \"worn_on_departure\": [...],\n  \"packed_in_luggage\": [...],\n  \"packing_cubes\": [\n    \x7b\"cube\": \"Cube 1\", \"items\": [\"T-shirt\", \"Underwear\"], \"total_volume_l\": 8.5\x7d\n  ],\n  \"totals\": \x7b\"estimated_volume_l\": 18.5, \"percent_of_capacity\": 47.4, \"estimated_weight_kg\": 5.2\x7d\n\x7d\nPARSEABLE_JSON_END\n```\n\n### Validation\n- Sum of worn + packed MUST equal total clothes (quantities and volumes)\n- Include all categories: clothing, toiletries, electronics, documents, accessories\n\n" ++
  additional_notes ++ "\n"

/-- Embedding of `prompts.build_prompt`. -/
def build_prompt (trip_info : TripInfo)
    (weather_data : List (String × WeatherData)) : String :=
  let additional :=
    if trip_info.additional_notes ≠ ""
    then "## Additional Notes\n" ++ trip_info.additional_notes
    else ""
  PACKING_PROMPT (format_trip_details trip_info)
    (format_weather_details weather_data) additional

/-! ## Configuration and provider selection (src/packmin/config.py, ai.py) -/

/-- config.Config (API keys are optional strings, None by default). -/
structure Config where
  ai_provider : String := "deepseek"
  openai_api_key : Option String := none
  openai_model : String := "gpt-4-turbo-preview"
  deepseek_api_key : Option String := none
  deepseek_model : String := "deepseek-chat"
  glm_api_key : Option String := none
  glm_model : String := "glm-4"
  gemini_api_key : Option String := none
  gemini_model : String := "gemini-pro"
  anthropic_api_key : Option String := none
  anthropic_model : String := "claude-3-sonnet-20240229"
  openweather_api_key : Option String := none
  default_luggage_volume : Rat := 39
  packing_cube_volume : Rat := 9
deriving DecidableEq

/-- The two provider classes instantiable by ai.get_provider. -/
inductive AIProvider where
  | openaiP : Config → AIProvider
  | deepseekP : Config → AIProvider
deriving DecidableEq

/-- Embedding of `ai.get_provider`: OpenAI only for the literal "openai",
every other configured provider value falls through to DeepSeek. -/
def get_provider (config : Config) : AIProvider :=
  if config.ai_provider = "openai" then .openaiP config
  else .deepseekP config

def SYSTEM_PROMPT : String :=
  "You are a travel packing expert who creates efficient, comprehensive packing lists using capsule wardrobe principles."

/-- The chat-completion request a provider generate method would send:
endpoint, credential, model and the two messages.  (The OpenAI branch goes
through the openai SDK client, whose endpoint is represented symbolically.) -/
structure ChatRequest where
  endpoint : String
  api_key : Option String
  model : String
  system_message : String
  user_message : String
deriving DecidableEq

def DEEPSEEK_API_URL : String := "https://api.deepseek.com/v1/chat/completions"

/-- The request each provider generate method builds from its config. -/
def AIProvider.request : AIProvider → String → ChatRequest
  | .openaiP cfg, prompt =>
    { endpoint := "openai-sdk", api_key := cfg.openai_api_key,
      model := cfg.openai_model, system_message := SYSTEM_PROMPT,
      user_message := prompt }
  | .deepseekP cfg, prompt =>
    { endpoint := DEEPSEEK_API_URL, api_key := cfg.deepseek_api_key,
      model := cfg.deepseek_model, system_message := SYSTEM_PROMPT,
      user_message := prompt }

/-! ## Concrete inputs used by the theorems below -/

/-- The worked example of the spec: a sentinel block holding one
total-clothes record. -/
def exampleResponse : String :=
  "PARSEABLE_JSON_START \x7b\"total_clothes\":[\x7b\"name\":\"T-shirt\",\"qty\":3,\"total_volume_l\":2.1\x7d]\x7d PARSEABLE_JSON_END"

/-- A sentinel block whose record fields are all missing, exercising the
defaults of the parser. -/
def defaultsResponse : String :=
  "PARSEABLE_JSON_START \x7b\"worn_on_departure\":[\x7b\x7d]\x7d PARSEABLE_JSON_END"

/-- A sentinel block holding valid json whose qty value is a non-numeric
string, so `int(item.get("qty", 1))` raises ValueError. -/
def badQtyResponse : String :=
  "PARSEABLE_JSON_START \x7b\"total_clothes\":[\x7b\"qty\":\"x\"\x7d]\x7d PARSEABLE_JSON_END"

/-- A text whose first sentinel region holds malformed json and whose
second region is the well-formed worked example. -/
def twoRegionResponse : String :=
  "PARSEABLE_JSON_START \x7boops\x7d PARSEABLE_JSON_END " ++ exampleResponse

/-- The decoded object of the worked example block. -/
def exampleDecoded : JVal :=
  .obj [("total_clothes",
    .arr [.obj [("name", .str "T-shirt"), ("qty", .int 3),
                ("total_volume_l", .float (21 / 10))]])]

/-- A one-destination trip with every optional field at its default. -/
def exampleTrip : TripInfo :=
  { destinations := [⟨"Paris, France", ⟨2025, 6, 1⟩, ⟨2025, 6, 7⟩⟩],
    traveler := {} }

/-- A weather map with a single seasonal entry. -/
def exampleWeather : List (String × WeatherData) :=
  [("Paris, France",
    { location := "Paris, France",
      forecasts := [get_seasonal_estimate 6],
      is_seasonal_estimate := true })]

/-! ## Helper lemmas -/

theorem scanStart_none_of_no_marker :
    ∀ cs : List Char, hasStartMarker cs = false → scanStart cs = none := by
  intro cs
  induction cs with
  | nil => intro _; rfl
  | cons c cs ih =>
    intro h
    rw [hasStartMarker, Bool.or_eq_false_iff] at h
    rw [scanStart, attemptAt]
    cases hs : stripLit startMarker (c :: cs) with
    | some rest => rw [hs] at h; simp at h
    | none => exact ih h.2

theorem extract_none_of_no_marker (raw : String)
    (h : hasStartMarker raw.data = false) : extract_json_block raw = none := by
  rw [extract_json_block, scanStart_none_of_no_marker raw.data h]

theorem append_left_ne_empty (p r : String) (hp : p ≠ "") : p ++ r ≠ "" := by
  intro h
  apply hp
  have hlen := congrArg String.length h
  rw [String.length_append] at hlen
  have : p.length = 0 := by
    have : ("" : String).length = 0 := rfl
    omega
  cases p with
  | mk data =>
    cases data with
    | nil => rfl
    | cons a as => simp [String.length] at this

theorem quantityMismatchMsg_ne_empty (t p w : Int) :
    quantityMismatchMsg t p w ≠ "" :=
  append_left_ne_empty _ _ (by decide)

theorem volumeMismatchMsg_ne_empty (t p w : Rat) :
    volumeMismatchMsg t p w ≠ "" :=
  append_left_ne_empty _ _ (by decide)

/-! ## The claims -/

/-- C1 (corrected).  The claim says parse_packing_list never raises for any
input text.  The degraded half is true and proved here: whenever the text
has no sentinel start marker, or extract_json_block yields nothing (no
match, or malformed json caught and turned into None), the parser returns
without error the empty PackingList - four empty collections, zero totals -
with raw_response the original text.  The universal never-raises half is
false: see the counterexample theorem. -/
theorem C1_degraded_parse_never_raises (raw : String) :
    (hasStartMarker raw.data = false →
      parse_packing_list raw = .ok (emptyPackingList raw)) ∧
    (extract_json_block raw = none →
      parse_packing_list raw = .ok (emptyPackingList raw)) := by
  constructor
  · intro h
    rw [parse_packing_list, extract_none_of_no_marker raw h]
  · intro h
    rw [parse_packing_list, h]

theorem C1_degraded_parse_never_raises_witness :
    parse_packing_list "The model sent back prose with no markers." =
      .ok (emptyPackingList "The model sent back prose with no markers.") :=
  (C1_degraded_parse_never_raises
    "The model sent back prose with no markers.").1 (by decide)

/-- C1 counterexample: on a text whose sentinel block is valid json with a
non-numeric qty value, the source evaluates `int(item.get("qty", 1))` on the
string "x" and raises ValueError to the caller, so parse_packing_list does
not return a PackingList for every input text. -/
theorem C1_parse_raises_on_bad_qty :
    parse_packing_list badQtyResponse = .error PyErr.valueError := by
  with_unfolding_all rfl

/-- C2 (confirmed).  validate_quantities fails exactly when the quantity
sums mismatch or the volume sums differ by more than 0.01; the message is
the "; "-joined list holding one message per violated condition (the
quantity message carrying the three quantity figures, the volume message
the three volume figures at two decimals), and the ok flag is true exactly
when the message is empty. -/
theorem C2_validate_quantities_spec (pl : PackingList) :
    ((pl.validate_quantities.1 = false) ↔
      (sumQty pl.total_clothes ≠
        sumQty pl.packed_in_luggage + sumQty pl.worn_on_departure ∨
       volTolerance < |sumVol pl.total_clothes -
        (sumVol pl.packed_in_luggage + sumVol pl.worn_on_departure)|)) ∧
    ((pl.validate_quantities.1 = true) ↔ pl.validate_quantities.2 = "") ∧
    pl.validate_quantities.2 = joinSep "; "
      ((if sumQty pl.total_clothes ≠
          sumQty pl.packed_in_luggage + sumQty pl.worn_on_departure
        then [quantityMismatchMsg (sumQty pl.total_clothes)
          (sumQty pl.packed_in_luggage) (sumQty pl.worn_on_departure)]
        else []) ++
       (if volTolerance < |sumVol pl.total_clothes -
          (sumVol pl.packed_in_luggage + sumVol pl.worn_on_departure)|
        then [volumeMismatchMsg (sumVol pl.total_clothes)
          (sumVol pl.packed_in_luggage) (sumVol pl.worn_on_departure)]
        else [])) := by
  have hqm := quantityMismatchMsg_ne_empty (sumQty pl.total_clothes)
    (sumQty pl.packed_in_luggage) (sumQty pl.worn_on_departure)
  have hvm := volumeMismatchMsg_ne_empty (sumVol pl.total_clothes)
    (sumVol pl.packed_in_luggage) (sumVol pl.worn_on_departure)
  have hqv := append_left_ne_empty
    (quantityMismatchMsg (sumQty pl.total_clothes)
      (sumQty pl.packed_in_luggage) (sumQty pl.worn_on_departure) ++ "; ")
    (volumeMismatchMsg (sumVol pl.total_clothes)
      (sumVol pl.packed_in_luggage) (sumVol pl.worn_on_departure))
    (append_left_ne_empty _ "; " hqm)
  by_cases hq : sumQty pl.total_clothes =
      sumQty pl.packed_in_luggage + sumQty pl.worn_on_departure <;>
    by_cases hv : volTolerance < |sumVol pl.total_clothes -
      (sumVol pl.packed_in_luggage + sumVol pl.worn_on_departure)| <;>
    simp [PackingList.validate_quantities, hq, hv, joinSep, hqm, hvm, hqv]

/-- C10 (confirmed).  A PackingList whose three item collections are empty
- in particular the degraded parser output - validates clean: every sum is
zero, both checks pass, and validate_quantities returns (true, ""). -/
theorem C10_empty_list_validates_clean (pl : PackingList)
    (h1 : pl.total_clothes = []) (h2 : pl.worn_on_departure = [])
    (h3 : pl.packed_in_luggage = []) :
    pl.validate_quantities = (true, "") := by
  have h0 : ¬ volTolerance < (0 : Rat) := by norm_num [volTolerance]
  have h0b : (0 : Rat) ≤ volTolerance := by norm_num [volTolerance]
  simp [PackingList.validate_quantities, h1, h2, h3, sumQty, sumVol,
    joinSep, h0, h0b]

theorem C10_empty_list_validates_clean_witness :
    (emptyPackingList "unparseable raw text").validate_quantities =
      (true, "") :=
  C10_empty_list_validates_clean _ rfl rfl rfl

/-- C3 (code bug).  The claim says build_prompt returns prompt text without
failing for every TripInfo.  The spec data model, and cli.py, give the
traveler a sleepwear field and the trip a luggage_name field, but
models.py declares neither; prompts.format_trip_details reads both
attributes, so on the classes as declared every call raises AttributeError.
This theorem records the mismatch on the verbatim field-name model: the
attributes read by format_trip_details are not among the declared fields. -/
theorem C3_format_trip_details_reads_undeclared_fields :
    ("sleepwear" ∈ formatTripDetailsTravelerReads ∧
     "sleepwear" ∉ travelerInfoDeclaredFields) ∧
    ("luggage_name" ∈ formatTripDetailsTripReads ∧
     "luggage_name" ∉ tripInfoDeclaredFields) := by
  decide

/-- C4 (confirmed).  With a valid sentinel block, the parser maps each json
record to a typed item with the coercions and defaults of the source: the
worked example yields exactly one total-clothes item named T-shirt with
quantity 3 and total_volume_l 2.1 and keeps the full input as raw_response;
a record with every field missing gets quantity 1, volumes 0, and empty
strings. -/
theorem C4_parse_maps_records_with_coercions :
    parse_packing_list exampleResponse =
      .ok { total_clothes := [⟨"T-shirt", 3, 0, 21 / 10, "", ""⟩],
            raw_response := exampleResponse } ∧
    parse_packing_list defaultsResponse =
      .ok { worn_on_departure := [⟨"", 1, 0, 0, "", ""⟩],
            raw_response := defaultsResponse } := by
  constructor <;> with_unfolding_all rfl

/-- C5 (confirmed).  get_weather_data always returns at least one forecast;
whenever no forecast data is obtained - the API branch yields an empty
list, which happens in particular when no API key is configured (None or
empty are falsy), when the trip start is more than 7 days away, when
coordinate resolution fails, or when the daily list is empty or no day of
it intersects the trip window - the result is the seasonal fallback:
flagged is_seasonal_estimate with exactly one forecast determined by the
start month - winter months 12, 1, 2 give -5 to 10, spring 3, 4, 5 and
fall 9, 10, 11 give 10 to 20, summer 6, 7, 8 gives 20 to 30 - whose
description holds the season name and whose rain chance is 30. -/
theorem C5_weather_fallback (location : String)
    (start_date end_date now : PyDateTime) (api_key : Option String)
    (coords : Option (Rat × Rat)) (daily_forecasts : List DailyEntry)
    (fmtDate : Int → String) :
    (get_weather_data location start_date end_date api_key now coords
       daily_forecasts fmtDate).forecasts ≠ [] ∧
    (api_forecast_list start_date end_date api_key now coords
        daily_forecasts fmtDate = [] →
      get_weather_data location start_date end_date api_key now coords
          daily_forecasts fmtDate =
        { location := location,
          forecasts := [get_seasonal_estimate start_date.month],
          is_seasonal_estimate := true }) ∧
    ((apiKeyTruthy api_key = false ∨ 7 < timedeltaDays start_date now) →
      get_weather_data location start_date end_date api_key now coords
          daily_forecasts fmtDate =
        { location := location,
          forecasts := [get_seasonal_estimate start_date.month],
          is_seasonal_estimate := true }) ∧
    (coords = none →
      get_weather_data location start_date end_date api_key now coords
          daily_forecasts fmtDate =
        { location := location,
          forecasts := [get_seasonal_estimate start_date.month],
          is_seasonal_estimate := true }) ∧
    (daily_forecasts.filter
        (fun day => start_date.secs ≤ day.dt ∧ day.dt ≤ end_date.secs) = [] →
      get_weather_data location start_date end_date api_key now coords
          daily_forecasts fmtDate =
        { location := location,
          forecasts := [get_seasonal_estimate start_date.month],
          is_seasonal_estimate := true }) ∧
    ((start_date.month = 12 ∨ start_date.month = 1 ∨ start_date.month = 2) →
      get_seasonal_estimate start_date.month =
        { date := "seasonal average", temp_min := -5, temp_max := 10,
          description := "winter weather", rain_chance := 30 }) ∧
    ((start_date.month = 3 ∨ start_date.month = 4 ∨ start_date.month = 5) →
      get_seasonal_estimate start_date.month =
        { date := "seasonal average", temp_min := 10, temp_max := 20,
          description := "spring weather", rain_chance := 30 }) ∧
    ((start_date.month = 6 ∨ start_date.month = 7 ∨ start_date.month = 8) →
      get_seasonal_estimate start_date.month =
        { date := "seasonal average", temp_min := 20, temp_max := 30,
          description := "summer weather", rain_chance := 30 }) ∧
    ((start_date.month = 9 ∨ start_date.month = 10 ∨ start_date.month = 11) →
      get_seasonal_estimate start_date.month =
        { date := "seasonal average", temp_min := 10, temp_max := 20,
          description := "fall weather", rain_chance := 30 }) := by
  have hgen : api_forecast_list start_date end_date api_key now coords
      daily_forecasts fmtDate = [] →
      get_weather_data location start_date end_date api_key now coords
          daily_forecasts fmtDate =
        { location := location,
          forecasts := [get_seasonal_estimate start_date.month],
          is_seasonal_estimate := true } := by
    intro h
    rw [get_weather_data, h]
  refine ⟨?_, hgen, ?_, ?_, ?_, ?_, ?_, ?_, ?_⟩
  · cases h : api_forecast_list start_date end_date api_key now coords
        daily_forecasts fmtDate with
    | nil => simp [get_weather_data, h]
    | cons f fs => simp [get_weather_data, h]
  · intro hyp
    apply hgen
    unfold api_forecast_list
    rw [if_neg]
    intro hcond
    rcases hyp with hkey | hdays
    · rw [hcond.2] at hkey
      exact absurd hkey (by simp)
    · omega
  · intro hc
    apply hgen
    unfold api_forecast_list
    rw [hc]
    split <;> rfl
  · intro hf
    apply hgen
    unfold api_forecast_list
    cases coords with
    | none => split <;> rfl
    | some c => split <;> simp only [hf, List.map_nil]
  · rintro (h | h | h) <;> rw [h] <;> with_unfolding_all rfl
  · rintro (h | h | h) <;> rw [h] <;> with_unfolding_all rfl
  · rintro (h | h | h) <;> rw [h] <;> with_unfolding_all rfl
  · rintro (h | h | h) <;> rw [h] <;> with_unfolding_all rfl

theorem C5_weather_fallback_witness :
    get_weather_data "Paris, France" ⟨1000000, 6⟩ ⟨1600000, 6⟩
        (some "key") ⟨900000, 6⟩ none [] (fun _ => "1970-01-01") =
      { location := "Paris, France",
        forecasts := [get_seasonal_estimate 6],
        is_seasonal_estimate := true } ∧
    get_weather_data "Rome, Italy" ⟨1700000000, 1⟩ ⟨1700600000, 1⟩ none
        ⟨1000, 1⟩ none [] (fun _ => "1970-01-01") =
      { location := "Rome, Italy",
        forecasts := [get_seasonal_estimate 1],
        is_seasonal_estimate := true } :=
  ⟨(C5_weather_fallback "Paris, France" ⟨1000000, 6⟩ ⟨1600000, 6⟩
      ⟨900000, 6⟩ (some "key") none [] (fun _ => "1970-01-01")).2.2.2.1 rfl,
   (C5_weather_fallback "Rome, Italy" ⟨1700000000, 1⟩ ⟨1700600000, 1⟩
      ⟨1000, 1⟩ none none [] (fun _ => "1970-01-01")).2.2.1 (Or.inl rfl)⟩

/-- C6 (confirmed).  duration_days is the whole-day difference of the
(inclusive) date range plus one, and June 1 to June 7 of 2025 is a 7-day
stay; total_duration_days sums the per-destination durations in order. -/
theorem C6_duration_arithmetic :
    (∀ d : TripDestination,
      dateToDays d.start_date ≤ dateToDays d.end_date →
      d.duration_days =
        (dateToDays d.end_date - dateToDays d.start_date) + 1) ∧
    (∀ t : TripInfo, t.total_duration_days =
      (t.destinations.map TripDestination.duration_days).sum) ∧
    TripDestination.duration_days ⟨"", ⟨2025, 6, 1⟩, ⟨2025, 6, 7⟩⟩ = 7 ∧
    TripInfo.total_duration_days
      { destinations := [⟨"Paris", ⟨2025, 6, 1⟩, ⟨2025, 6, 3⟩⟩,
                         ⟨"Rome", ⟨2025, 6, 4⟩, ⟨2025, 6, 7⟩⟩],
        traveler := {} } = 7 := by
  exact ⟨fun d _ => rfl, fun t => rfl, by decide, by decide⟩

theorem C6_duration_arithmetic_witness :
    TripDestination.duration_days ⟨"Paris", ⟨2025, 6, 1⟩, ⟨2025, 6, 7⟩⟩ =
      (dateToDays ⟨2025, 6, 7⟩ - dateToDays ⟨2025, 6, 1⟩) + 1 :=
  C6_duration_arithmetic.1 ⟨"Paris", ⟨2025, 6, 1⟩, ⟨2025, 6, 7⟩⟩ (by decide)

/-- C7 (confirmed).  build_prompt is a pure function of the trip and the
weather map: two invocations on identical inputs produce identical prompt
text (the embedding reads nothing but its two arguments). -/
theorem C7_build_prompt_deterministic (t1 t2 : TripInfo)
    (w1 w2 : List (String × WeatherData)) (ht : t1 = t2) (hw : w1 = w2) :
    build_prompt t1 w1 = build_prompt t2 w2 := by
  rw [ht, hw]

theorem C7_build_prompt_deterministic_witness :
    build_prompt exampleTrip exampleWeather =
      build_prompt exampleTrip exampleWeather :=
  C7_build_prompt_deterministic exampleTrip exampleTrip exampleWeather
    exampleWeather rfl rfl

/-- C8 (confirmed).  For every config whose provider is not the literal
"openai" - the configured-as-supported values glm, gemini and anthropic
included - get_provider returns the DeepSeek provider, whose generate
method posts to the DeepSeek endpoint with the DeepSeek API key and model,
not those of the selected provider. -/
theorem C8_nonopenai_selects_deepseek (config : Config) (prompt : String)
    (h : config.ai_provider ≠ "openai") :
    get_provider config = .deepseekP config ∧
    (get_provider config).request prompt =
      { endpoint := DEEPSEEK_API_URL, api_key := config.deepseek_api_key,
        model := config.deepseek_model, system_message := SYSTEM_PROMPT,
        user_message := prompt } := by
  have hp : get_provider config = .deepseekP config := by
    rw [get_provider, if_neg h]
  exact ⟨hp, by rw [hp]; rfl⟩

theorem C8_nonopenai_selects_deepseek_witness :
    get_provider { ai_provider := "glm" } =
      .deepseekP { ai_provider := "glm" } :=
  (C8_nonopenai_selects_deepseek { ai_provider := "glm" } "prompt"
    (by decide)).1

/-- C9 (confirmed).  extract_json_block only considers the first
sentinel-delimited region: on a text whose first region holds malformed
json, it returns None - and parse_packing_list returns the empty degraded
list - even though a later region of the same text is the well-formed
worked example, which on its own decodes to the expected object. -/
theorem C9_first_region_only :
    extract_json_block twoRegionResponse = none ∧
    parse_packing_list twoRegionResponse =
      .ok (emptyPackingList twoRegionResponse) ∧
    extract_json_block exampleResponse = some exampleDecoded := by
  refine ⟨?_, ?_, ?_⟩ <;> with_unfolding_all rfl

end Packmin
